import Mathlib

/-!
# SimpleYTDownloader — Gateway verification

A shallow embedding of the Download Orchestration Gateway implemented in
`src/server/routes.ts` (with the browser-side pieces from
`src/client/src/components/download-form.tsx` and the client api module),
together with theorems settling the specification claims about it.

The server file `registerRoutes` does, in order:
 1. spawns the python engine process;
 2. builds `waitForPythonService`, a one-shot Promise whose executor wires
    handlers on the child process (stdout data, stderr data, error, exit)
    and a 60-second timer;
 3. registers `GET /api/downloads/events` immediately (the event-stream
    subscription endpoint backed by the `clients` set);
 4. on resolution of the promise registers `GET /api/downloads` and
    `POST /api/downloads`; on rejection calls `process.exit(1)`;
 5. installs a SIGTERM handler that kills the child process handle.

We model each part as explicit state plus step functions, and traces of
handler invocations as lists of events.
-/

set_option autoImplicit false

namespace YTGateway

/-- Boolean substring test on character lists: `hay` contains `needle` as a
contiguous substring.  Mirrors JavaScript `String.prototype.includes`. -/
def containsSub (needle : List Char) : List Char → Bool
  | [] => needle.isEmpty
  | h :: t => needle.isPrefixOf (h :: t) || containsSub needle t

/-! ## One-shot promise semantics

`waitForPythonService` is a JavaScript `Promise`: it settles at most once;
`resolve`/`reject` on an already settled promise are no-ops. -/

/-- The settlement state of a JavaScript promise. -/
inductive PromiseState where
  | pending
  | resolved
  | rejected (msg : String)
deriving DecidableEq, Repr

/-- `resolve()`: settles a pending promise, no-op otherwise. -/
def PromiseState.resolve : PromiseState → PromiseState
  | .pending => .resolved
  | s => s

/-- `reject(new Error(msg))`: settles a pending promise, no-op otherwise. -/
def PromiseState.reject (msg : String) : PromiseState → PromiseState
  | .pending => .rejected msg
  | s => s

/-! ## The supervisor (`waitForPythonService`, routes.ts lines 21–59) -/

/-- The sentinel substring the stdout handler looks for:
`output.includes("Application startup complete")`. -/
def sentinel : List Char := "Application startup complete".toList

/-- State owned by the `waitForPythonService` executor: the promise, the
accumulated stdout `output` string, whether `clearTimeout(timeout)` has run,
whether `pythonProcess.kill()` was invoked by the timeout callback, and how
many times the stdout handler has called `notifyClients()`. -/
structure SupState where
  promise : PromiseState
  output : List Char
  timeoutCleared : Bool
  killed : Bool
  stdoutNotifies : Nat
deriving DecidableEq, Repr

/-- State when the executor has just installed its handlers. -/
def initSup : SupState :=
  { promise := .pending, output := [], timeoutCleared := false,
    killed := false, stdoutNotifies := 0 }

/-- The events the executor's handlers react to: a chunk on stdout, a chunk
on stderr, a spawn `error` event, the `exit` event (Node delivers the exit
code as a number or `null` when killed by signal), and the 60-second timer
callback firing. -/
inductive SupEvent where
  | stdoutData (d : List Char)
  | stderrData (d : List Char)
  | errorEvt (msg : String)
  | exitEvt (code : Option Int)
  | timerFires
deriving DecidableEq, Repr

/-- One handler invocation, transcribed from routes.ts lines 23–58:

* stdout `data`: `output += data`; if `output.includes(sentinel)` then
  `clearTimeout(timeout); resolve(true)`; then `notifyClients()`;
* stderr `data`: only logs (severity classification), touches no state here;
* `error`: `clearTimeout(timeout); reject(err)`;
* `exit`: `clearTimeout(timeout); if (code !== 0 && code !== null) reject(...)`;
* the timer firing (it only fires if `clearTimeout` has not run):
  `pythonProcess.kill(); reject(new Error("Python service failed to start"))`. -/
def stepSup (st : SupState) : SupEvent → SupState
  | .stdoutData d =>
      let output := st.output ++ d
      if containsSub sentinel output then
        { st with output, stdoutNotifies := st.stdoutNotifies + 1,
                  timeoutCleared := true, promise := st.promise.resolve }
      else
        { st with output, stdoutNotifies := st.stdoutNotifies + 1 }
  | .stderrData _ => st
  | .errorEvt msg =>
      { st with timeoutCleared := true, promise := st.promise.reject msg }
  | .exitEvt code =>
      match code with
      | some c =>
          if c ≠ 0 then
            { st with timeoutCleared := true,
                      promise := st.promise.reject
                        ("Python service exited with code " ++ toString c) }
          else { st with timeoutCleared := true }
      | none => { st with timeoutCleared := true }
  | .timerFires =>
      if st.timeoutCleared then st
      else
        { st with killed := true,
                  promise := st.promise.reject "Python service failed to start" }

/-- Run the executor over a trace of events. -/
def runSup (events : List SupEvent) : SupState :=
  events.foldl stepSup initSup

/-- The `.then` continuation registered the job routes iff the promise
resolved (promises are one-shot, so this is a function of the final state). -/
def jobRoutesReadyOf (st : SupState) : Bool :=
  st.promise = .resolved

/-- The `.catch` continuation ran `process.exit(1)` iff the promise was
rejected. -/
def gatewayExitedOf (st : SupState) : Bool :=
  match st.promise with
  | .rejected _ => true
  | _ => false

/-! ## The Express route table

`registerRoutes` registers `GET /api/downloads/events` unconditionally and
`GET /api/downloads` / `POST /api/downloads` only inside
`waitForPythonService.then`.  No other route is ever registered; requests
matching none of these fall through to the Vite catch-all
(`app.use("*", ...)` in vite.ts), which answers with the SPA's `index.html`. -/

/-- HTTP method of a registered route or incoming request. -/
inductive Method where
  | get
  | post
deriving DecidableEq, Repr

/-- A registered route: exact method and path (none of the registered
routes uses path parameters). -/
structure RouteKey where
  method : Method
  path : List Char
deriving DecidableEq, Repr

instance : BEq RouteKey := ⟨fun a b => decide (a = b)⟩

instance : LawfulBEq RouteKey where
  rfl := by
    intro a; simp [BEq.beq]
  eq_of_beq := by
    intro a b h; simpa [BEq.beq] using h

def eventsPath : List Char := "/api/downloads/events".toList

def downloadsPath : List Char := "/api/downloads".toList

/-- Routes registered before the readiness promise settles. -/
def immediateRoutes : List RouteKey := [⟨.get, eventsPath⟩]

/-- Routes registered by the `.then` continuation once the engine is ready. -/
def readyRoutes : List RouteKey :=
  [⟨.get, downloadsPath⟩, ⟨.post, downloadsPath⟩]

/-- The route table as a function of whether the readiness promise has
resolved. -/
def registeredRoutes (ready : Bool) : List RouteKey :=
  immediateRoutes ++ (if ready then readyRoutes else [])

/-- Express dispatch: the first registered route whose method and path match
the request, if any; `none` means the request falls through to the SPA
catch-all. -/
def dispatch (ready : Bool) (m : Method) (p : List Char) : Option RouteKey :=
  (registeredRoutes ready).find? (fun r => r.method == m && r.path == p)

/-- The path the client api module requests for `pauseDownload(id)`:
`/api/downloads/${id}/pause`. -/
def pausePath (id : List Char) : List Char :=
  "/api/downloads/".toList ++ id ++ "/pause".toList

/-- The path the client api module requests for `resumeDownload(id)`. -/
def resumePath (id : List Char) : List Char :=
  "/api/downloads/".toList ++ id ++ "/resume".toList

/-- The path the client api module requests for `cancelDownload(id)`. -/
def cancelPath (id : List Char) : List Char :=
  "/api/downloads/".toList ++ id ++ "/cancel".toList

/-! ## The event fan-out hub (`clients` set, routes.ts lines 7, 61–74)

`clients` is a JavaScript `Set` of open server-sent-event responses.  We
identify each response object by a numeric id and track whether its
underlying connection is still writable (a `res.write` on a destroyed
response is surfaced asynchronously by Node's stream machinery: it does not
throw in the `forEach` callback and does not deliver anything). -/

/-- One registered push channel: the response object's identity and whether
its connection is still open, so that a write actually delivers. -/
structure Channel where
  id : Nat
  writable : Bool
deriving DecidableEq, Repr

/-- `clients.add(res)`: a `Set` adds the element unless it is already a
member. -/
def addClient (cs : List Channel) (c : Channel) : List Channel :=
  if cs.contains c then cs else cs ++ [c]

/-- `clients.delete(res)` from the `req.on("close")` handler: removes the
channel of that identity from the registry. -/
def removeClient (cs : List Channel) (i : Nat) : List Channel :=
  cs.filter (fun x => x.id ≠ i)

/-- Result of the `GET /api/downloads/events` handler for a fresh
connection `c`: the data chunks written to the new response, and the
registry after `clients.add(res)`. -/
structure SubscribeResult where
  writes : List (List Char)
  clients : List Channel
deriving DecidableEq, Repr

/-- The events handler (routes.ts lines 61–68): sets the SSE headers,
writes `data: ping\n\n` once, adds the response to `clients`, and installs
a close handler (modelled separately by `removeClient`). -/
def eventsHandler (cs : List Channel) (c : Channel) : SubscribeResult :=
  { writes := ["data: ping\n\n".toList], clients := addClient cs c }

/-- The ids whose `client.write(...)` call in `notifyClients` actually
delivers the marker: the iteration visits every registered channel in
order; a write on a closed channel delivers nothing (and raises no
synchronous error), and the iteration continues. -/
def broadcastWrites : List Channel → List Nat
  | [] => []
  | c :: rest =>
      (if c.writable then [c.id] else []) ++ broadcastWrites rest

/-- `notifyClients` (routes.ts lines 70–74): `clients.forEach(client =>
client.write("data: update\n\n"))`.  The body only calls `write`; the
registry itself is not modified by the broadcast. -/
def notifyClients (cs : List Channel) : List Channel × List Nat :=
  (cs, broadcastWrites cs)

/-! ## The `POST /api/downloads` handler (routes.ts lines 90–111)

The handler forwards `req.body` to the engine verbatim
(`body: JSON.stringify(req.body)`), with no validation of any kind.  The
engine's reply is either a success with a JSON body, an HTTP error (in
which case the handler throws `new Error(await response.text())` and the
catch block answers 500 with that message), or a network failure of the
`fetch` itself (also answered as 500 with the error's message). -/

/-- The shape of a job-creation request body as the client submits it
(download-form.tsx / api.ts `startDownload`). -/
structure DownloadSpec where
  url : String
  format : String
  quality : String
  is_playlist : Bool
deriving DecidableEq, Repr

/-- The engine's reply to the forwarded `POST http://localhost:5001/download`:
success with a response body, an HTTP-level rejection with status and body,
or a failure of the fetch itself. -/
inductive EngineReply where
  | ok (body : String)
  | httpError (status : Nat) (body : String)
  | netError (msg : String)
deriving DecidableEq, Repr

/-- Observable actions of the POST handler, in execution order. -/
inductive Action where
  | engineCall (spec : DownloadSpec)
  | notify
  | respondJson (body : String)
  | respondError (status : Nat) (msg : String)
deriving DecidableEq, Repr

/-- The `POST /api/downloads` handler as a trace of its observable actions:
it always performs the engine call with the request body unmodified; on a
non-ok response it answers 500 carrying the engine's response text; on
success it calls `notifyClients()` and then answers with the engine's JSON
unmodified. -/
def postDownloadsHandler (spec : DownloadSpec) (reply : EngineReply) :
    List Action :=
  match reply with
  | .ok body => [.engineCall spec, .notify, .respondJson body]
  | .httpError _ body => [.engineCall spec, .respondError 500 body]
  | .netError msg => [.engineCall spec, .respondError 500 msg]

/-! ## The client-side form schema (download-form.tsx lines 13–22)

`formSchema` is the only validation in the repository: a zod object with
`url: z.string().url(...)`, `format`/`quality` enums and a boolean
`is_playlist`.  `react-hook-form`'s `handleSubmit` invokes the mutation
(`startDownload`, which performs the network request) only when the
resolver reports no issues.  zod's `.url()` check delegates to the
platform's URL parser; we take it as a parameter `urlOk`. -/

/-- The enumerated formats of `z.enum(["mp4", "webm", "m4a", "mp3"])`. -/
def formatEnum : List String := ["mp4", "webm", "m4a", "mp3"]

/-- The enumerated qualities of `z.enum(["high", "medium", "low"])`. -/
def qualityEnum : List String := ["high", "medium", "low"]

/-- The fields on which the zod resolver reports an issue for a given
submission, given the platform URL validity test `urlOk`. -/
def invalidFields (urlOk : String → Bool) (s : DownloadSpec) : List String :=
  (if urlOk s.url then [] else ["url"]) ++
  (if formatEnum.contains s.format then [] else ["format"]) ++
  (if qualityEnum.contains s.quality then [] else ["quality"])

/-- Whether the resolver passes the submission through to `onSubmit`. -/
def formSchemaAccepts (urlOk : String → Bool) (s : DownloadSpec) : Bool :=
  (invalidFields urlOk s).isEmpty

/-- The network requests the client issues for one form submission:
`handleSubmit` calls `onSubmit` (hence `startDownload`) only when the
resolver accepted the values. -/
def clientSubmit (urlOk : String → Bool) (s : DownloadSpec) :
    List DownloadSpec :=
  if formSchemaAccepts urlOk s then [s] else []

/-! ## SIGTERM handling (routes.ts lines 119–123)

`process.on('SIGTERM', () => { if (pythonProcess) { pythonProcess.kill(); } })`
— every delivery of the signal runs the handler; the handle is never
cleared, so each delivery issues another `kill()` call. -/

/-- State relevant to the SIGTERM handler: whether the module-level
`pythonProcess` handle is set, and how many times `kill()` has been
invoked on it. -/
structure ShutdownState where
  procPresent : Bool
  killCalls : Nat
deriving DecidableEq, Repr

/-- One delivery of SIGTERM: the handler calls `pythonProcess.kill()`
whenever the handle is non-null. -/
def onSigterm (st : ShutdownState) : ShutdownState :=
  if st.procPresent then { st with killCalls := st.killCalls + 1 } else st

/-- `n` successive deliveries of SIGTERM. -/
def applySignals : Nat → ShutdownState → ShutdownState
  | 0, st => st
  | n + 1, st => applySignals n (onSigterm st)

/-! ## Helper lemmas -/

/-- The last character of `pre ++ id ++ suf` is the last character of `suf`
whenever `suf` is nonempty. -/
lemma getLast?_concat_three (pre id suf : List Char) (hsuf : suf ≠ []) :
    (pre ++ id ++ suf).getLast? = suf.getLast? := by
  rw [List.append_assoc,
    List.getLast?_append_of_ne_nil _ (by simp [hsuf]),
    List.getLast?_append_of_ne_nil _ hsuf]

/-- A client control path, whose suffix ends in a different character than
a given registered path, cannot equal it. -/
lemma concat_ne_of_getLast (pre id suf tgt : List Char) (hsuf : suf ≠ [])
    (hlast : suf.getLast? ≠ tgt.getLast?) :
    pre ++ id ++ suf ≠ tgt := by
  intro hEq
  exact hlast (by rw [← getLast?_concat_three pre id suf hsuf, hEq])

/-- A request whose path matches neither registered path dispatches to no
handler, in either readiness state. -/
lemma dispatch_eq_none_of_path (ready : Bool) (m : Method) (p : List Char)
    (h1 : p ≠ eventsPath) (h2 : p ≠ downloadsPath) :
    dispatch ready m p = none := by
  have e1 : (eventsPath == p) = false := beq_eq_false_iff_ne.mpr (Ne.symm h1)
  have e2 : (downloadsPath == p) = false := beq_eq_false_iff_ne.mpr (Ne.symm h2)
  cases ready <;>
    · refine List.find?_eq_none.mpr ?_
      intro r hr
      simp only [registeredRoutes, immediateRoutes, readyRoutes,
        Bool.false_eq_true, if_false, if_true, List.append_nil,
        List.mem_append, List.mem_singleton, List.mem_cons,
        List.not_mem_nil, or_false] at hr
      first
      | (subst hr; simp [e1])
      | (rcases hr with hr | hr | hr <;> subst hr <;> simp [e1, e2])

/-! ## C1 -/

/-- C1: the claim says the Gateway exposes `pause(id)`, `resume(id)` and
`cancel(id)` endpoints forwarding to the engine.  In fact `registerRoutes`
never registers any route matching the control paths the client requests:
for every job identifier and in both readiness states, dispatching
`POST /api/downloads/{id}/pause` (resp. `/resume`, `/cancel`) finds no
handler, so the request falls to the SPA catch-all, the engine receives no
control call, and no fan-out notification fires. -/
theorem control_endpoints_missing :
    ∀ (ready : Bool) (id : List Char),
      dispatch ready .post (pausePath id) = none ∧
      dispatch ready .post (resumePath id) = none ∧
      dispatch ready .post (cancelPath id) = none := by
  intro ready id
  refine ⟨?_, ?_, ?_⟩
  · exact dispatch_eq_none_of_path ready .post (pausePath id)
      (concat_ne_of_getLast _ id _ _ (by decide) (by decide))
      (concat_ne_of_getLast _ id _ _ (by decide) (by decide))
  · exact dispatch_eq_none_of_path ready .post (resumePath id)
      (concat_ne_of_getLast _ id _ _ (by decide) (by decide))
      (concat_ne_of_getLast _ id _ _ (by decide) (by decide))
  · exact dispatch_eq_none_of_path ready .post (cancelPath id)
      (concat_ne_of_getLast _ id _ _ (by decide) (by decide))
      (concat_ne_of_getLast _ id _ _ (by decide) (by decide))

/-! ## C3 -/

/-- C3 counterexample: a `POST /api/downloads` request arriving before the
readiness future resolves matches no registered route at all — it is
answered by the SPA catch-all, which is neither "block until readiness"
nor a `ServiceNotReady` failure; the exact same request after readiness is
handled by the job route.  So the claimed two-outcome policy does not hold. -/
theorem pre_ready_request_falls_through :
    dispatch false .post downloadsPath = none ∧
    dispatch true .post downloadsPath = some ⟨.post, downloadsPath⟩ := by
  decide

/-- C3 amended: before the readiness future resolves, no job-mutating
(`POST`) route exists at all: every `POST` request dispatches to no
handler and falls through to the SPA catch-all; the job routes are
registered only once readiness resolves. -/
theorem pre_ready_no_post_routes :
    ∀ (p : List Char), dispatch false .post p = none := by
  intro p
  have hm : (Method.get == Method.post) = false := by decide
  refine List.find?_eq_none.mpr ?_
  intro r hr
  simp only [registeredRoutes, immediateRoutes, Bool.false_eq_true, if_false,
    List.append_nil, List.mem_singleton] at hr
  subst hr
  simp [hm]

/-! ## C9 -/

/-- C9: the event-stream endpoint `GET /api/downloads/events` is registered
regardless of the readiness state, and for any incoming subscription its
handler writes exactly one liveness marker `data: ping\n\n`, appends the
channel to the registry, and the connection-close handler removes exactly
that channel again. -/
theorem events_subscribe_any_time (ready : Bool) (cs : List Channel)
    (c : Channel) (hfresh : ∀ x ∈ cs, x.id ≠ c.id) :
    dispatch ready .get eventsPath = some ⟨.get, eventsPath⟩ ∧
    (eventsHandler cs c).writes = ["data: ping\n\n".toList] ∧
    (eventsHandler cs c).clients = cs ++ [c] ∧
    removeClient (eventsHandler cs c).clients c.id = cs := by
  have hmem : c ∉ cs := fun h => hfresh c h rfl
  have hadd : addClient cs c = cs ++ [c] := by
    simp [addClient, hmem]
  refine ⟨?_, rfl, ?_, ?_⟩
  · cases ready <;> decide
  · simp [eventsHandler, hadd]
  · simp only [eventsHandler, hadd, removeClient, List.filter_append]
    have h1 : cs.filter (fun x => decide (x.id ≠ c.id)) = cs :=
      List.filter_eq_self.mpr (fun x hx => by simp [hfresh x hx])
    rw [h1]
    simp

/-! ## C4 -/

/-- C4 counterexample: the engine crashes with exit code 1 after readiness
(the sentinel chunk already resolved the future).  The rejection inside the
exit handler is a no-op on the settled promise, so the `.catch` running
`process.exit(1)` never fires: the Gateway keeps serving with its job
routes registered, contradicting the claim that the fault is fatal in
either case. -/
theorem post_ready_crash_not_fatal :
    jobRoutesReadyOf (runSup
      [.stdoutData ("Application startup complete\n".toList),
       .exitEvt (some 1)]) = true ∧
    gatewayExitedOf (runSup
      [.stdoutData ("Application startup complete\n".toList),
       .exitEvt (some 1)]) = false := by
  decide

/-- C4 amended: a non-zero exit while the readiness future is still pending
rejects it (so the `.catch` continuation exits the Gateway process
non-zero); a non-zero exit after the future has resolved leaves it
resolved — the Gateway does not exit, receives no notification, and its
job routes stay registered. -/
theorem crash_fatal_only_before_ready (st : SupState) (c : Int)
    (hc : c ≠ 0) :
    (st.promise = .pending →
      (stepSup st (.exitEvt (some c))).promise =
        .rejected ("Python service exited with code " ++ toString c) ∧
      gatewayExitedOf (stepSup st (.exitEvt (some c))) = true) ∧
    (st.promise = .resolved →
      (stepSup st (.exitEvt (some c))).promise = .resolved ∧
      gatewayExitedOf (stepSup st (.exitEvt (some c))) = false ∧
      jobRoutesReadyOf (stepSup st (.exitEvt (some c))) = true) := by
  constructor
  · intro h
    simp [stepSup, hc, h, PromiseState.reject, gatewayExitedOf]
  · intro h
    simp [stepSup, hc, h, PromiseState.reject, gatewayExitedOf,
      jobRoutesReadyOf]

/-- C4 witness: the amended statement at the state reached after the
sentinel chunk, crashing with code 1. -/
theorem crash_fatal_only_before_ready_witness :
    (1 : Int) ≠ 0 ∧
    (((stepSup initSup
          (.stdoutData ("Application startup complete\n".toList))).promise =
            .pending →
        (stepSup (stepSup initSup
            (.stdoutData ("Application startup complete\n".toList)))
          (.exitEvt (some 1))).promise =
          .rejected ("Python service exited with code " ++ toString (1 : Int)) ∧
        gatewayExitedOf (stepSup (stepSup initSup
            (.stdoutData ("Application startup complete\n".toList)))
          (.exitEvt (some 1))) = true) ∧
     ((stepSup initSup
          (.stdoutData ("Application startup complete\n".toList))).promise =
            .resolved →
        (stepSup (stepSup initSup
            (.stdoutData ("Application startup complete\n".toList)))
          (.exitEvt (some 1))).promise = .resolved ∧
        gatewayExitedOf (stepSup (stepSup initSup
            (.stdoutData ("Application startup complete\n".toList)))
          (.exitEvt (some 1))) = false ∧
        jobRoutesReadyOf (stepSup (stepSup initSup
            (.stdoutData ("Application startup complete\n".toList)))
          (.exitEvt (some 1))) = true)) :=
  ⟨by decide,
   crash_fatal_only_before_ready
     (stepSup initSup (.stdoutData ("Application startup complete\n".toList)))
     1 (by decide)⟩

/-! ## C6 -/

/-- C6 counterexample: a stdout line containing the claimed sentinel
substring "startup complete" arrives as the first chunk, yet the readiness
future stays pending — the code actually matches the longer substring
"Application startup complete" (against the accumulated output), so the
claimed "first line containing the sentinel resolves the future" is false. -/
theorem sentinel_line_not_sufficient :
    containsSub ("startup complete".toList) ("startup complete\n".toList)
        = true ∧
    (stepSup initSup
        (.stdoutData ("startup complete\n".toList))).promise = .pending := by
  decide

/-- C6 amended: the stdout handler matches the accumulated output against
the sentinel "Application startup complete": the first chunk making the
accumulated output contain it resolves the pending readiness future and
cancels the timeout, a chunk that does not leaves the future pending, and
if the 60-second timer fires while the timeout is still armed the future
is rejected with "Python service failed to start" and the engine process
is killed. -/
theorem readiness_sentinel_and_timeout (st : SupState) (d : List Char)
    (h1 : st.promise = .pending) :
    (containsSub sentinel (st.output ++ d) = true →
      (stepSup st (.stdoutData d)).promise = .resolved ∧
      (stepSup st (.stdoutData d)).timeoutCleared = true) ∧
    (containsSub sentinel (st.output ++ d) = false →
      (stepSup st (.stdoutData d)).promise = .pending) ∧
    (st.timeoutCleared = false →
      (stepSup st .timerFires).promise =
        .rejected "Python service failed to start" ∧
      (stepSup st .timerFires).killed = true) := by
  refine ⟨?_, ?_, ?_⟩
  · intro h
    simp [stepSup, h, h1, PromiseState.resolve]
  · intro h
    simp [stepSup, h, h1]
  · intro h
    simp [stepSup, h, h1, PromiseState.reject]

/-- C6 witness: the amended statement at the initial state with the full
sentinel arriving in one chunk. -/
theorem readiness_sentinel_and_timeout_witness :
    initSup.promise = .pending ∧
    ((containsSub sentinel
          (initSup.output ++ "Application startup complete".toList) = true →
        (stepSup initSup
          (.stdoutData ("Application startup complete".toList))).promise =
            .resolved ∧
        (stepSup initSup
          (.stdoutData
            ("Application startup complete".toList))).timeoutCleared = true) ∧
     (containsSub sentinel
          (initSup.output ++ "Application startup complete".toList) = false →
        (stepSup initSup
          (.stdoutData ("Application startup complete".toList))).promise =
            .pending) ∧
     (initSup.timeoutCleared = false →
        (stepSup initSup .timerFires).promise =
          .rejected "Python service failed to start" ∧
        (stepSup initSup .timerFires).killed = true)) :=
  ⟨rfl, readiness_sentinel_and_timeout initSup
    ("Application startup complete".toList) rfl⟩

/-! ## C10 -/

/-- C10: on a clean exit (code 0, or `null` for a signal kill) while the
readiness future is still pending, the exit handler cancels the startup
timeout but neither resolves nor rejects: the future stays pending, the
job routes are never registered, the Gateway never exits, and the timer
can no longer fire (its callback is a no-op once the timeout is cleared);
only a non-zero numeric code rejects the future. -/
theorem clean_exit_never_settles (st : SupState) (c : Int)
    (h : st.promise = .pending) (hc : c ≠ 0) :
    (stepSup st (.exitEvt (some 0))).promise = .pending ∧
    (stepSup st (.exitEvt (some 0))).timeoutCleared = true ∧
    jobRoutesReadyOf (stepSup st (.exitEvt (some 0))) = false ∧
    gatewayExitedOf (stepSup st (.exitEvt (some 0))) = false ∧
    stepSup (stepSup st (.exitEvt (some 0))) .timerFires =
      stepSup st (.exitEvt (some 0)) ∧
    (stepSup st (.exitEvt none)).promise = .pending ∧
    (stepSup st (.exitEvt none)).timeoutCleared = true ∧
    (stepSup st (.exitEvt (some c))).promise =
      .rejected ("Python service exited with code " ++ toString c) := by
  refine ⟨?_, ?_, ?_, ?_, ?_, ?_, ?_, ?_⟩ <;>
    simp [stepSup, h, hc, jobRoutesReadyOf, gatewayExitedOf,
      PromiseState.reject]

/-- C10 witness: the statement at the initial supervisor state with
non-zero code 1. -/
theorem clean_exit_never_settles_witness :
    initSup.promise = .pending ∧ (1 : Int) ≠ 0 ∧
    ((stepSup initSup (.exitEvt (some 0))).promise = .pending ∧
     (stepSup initSup (.exitEvt (some 0))).timeoutCleared = true ∧
     jobRoutesReadyOf (stepSup initSup (.exitEvt (some 0))) = false ∧
     gatewayExitedOf (stepSup initSup (.exitEvt (some 0))) = false ∧
     stepSup (stepSup initSup (.exitEvt (some 0))) .timerFires =
       stepSup initSup (.exitEvt (some 0)) ∧
     (stepSup initSup (.exitEvt none)).promise = .pending ∧
     (stepSup initSup (.exitEvt none)).timeoutCleared = true ∧
     (stepSup initSup (.exitEvt (some 1))).promise =
       .rejected ("Python service exited with code " ++ toString (1 : Int))) :=
  ⟨rfl, by decide, clean_exit_never_settles initSup 1 rfl (by decide)⟩

/-! ## C2 -/

/-- C2 counterexample: a job-creation request whose `format` ("exe") lies
outside the enumerated set still reaches the engine — the `POST
/api/downloads` handler performs the engine call and, the engine accepting,
answers with the engine's JSON rather than any `InvalidRequest` error.  The
Gateway performs no validation at all. -/
theorem gateway_forwards_invalid_format :
    formatEnum.contains
      (DownloadSpec.mk "https://example.com/v1" "exe" "high" false).format
        = false ∧
    Action.engineCall (DownloadSpec.mk "https://example.com/v1" "exe" "high" false)
      ∈ postDownloadsHandler
          (DownloadSpec.mk "https://example.com/v1" "exe" "high" false)
          (.ok "{}") ∧
    postDownloadsHandler
        (DownloadSpec.mk "https://example.com/v1" "exe" "high" false)
        (.ok "{}") =
      [.engineCall (DownloadSpec.mk "https://example.com/v1" "exe" "high" false),
       .notify, .respondJson "{}"] := by
  decide

/-- C2 amended: the validation of `sourceUrl`, `format` and `quality` lives
in the client's zod form schema, not in the Gateway: a submission the
schema rejects produces a field-level issue (the offending field is listed)
and the client performs no network request at all, while the Gateway's own
handler forwards any body it does receive to the engine unconditionally. -/
theorem client_validates_gateway_does_not (urlOk : String → Bool)
    (s : DownloadSpec) (reply : EngineReply)
    (h : formSchemaAccepts urlOk s = false) :
    invalidFields urlOk s ≠ [] ∧
    clientSubmit urlOk s = [] ∧
    (urlOk s.url = false → "url" ∈ invalidFields urlOk s) ∧
    (formatEnum.contains s.format = false →
      "format" ∈ invalidFields urlOk s) ∧
    (qualityEnum.contains s.quality = false →
      "quality" ∈ invalidFields urlOk s) ∧
    Action.engineCall s ∈ postDownloadsHandler s reply := by
  refine ⟨?_, ?_, ?_, ?_, ?_, ?_⟩
  · intro hEmpty
    rw [formSchemaAccepts, hEmpty] at h
    simp at h
  · simp [clientSubmit, h]
  · intro hu
    simp [invalidFields, hu]
  · intro hf
    have hf2 : s.format ∉ formatEnum := by simpa using hf
    simp [invalidFields, hf2]
  · intro hq
    have hq2 : s.quality ∉ qualityEnum := by simpa using hq
    simp [invalidFields, hq2]
  · cases reply <;> simp [postDownloadsHandler]

/-- C2 witness: the amended statement for the invalid-format submission,
with a URL check that accepts everything. -/
theorem client_validates_gateway_does_not_witness :
    formSchemaAccepts (fun _ => true)
      (DownloadSpec.mk "https://example.com/v1" "exe" "high" false) = false ∧
    (invalidFields (fun _ => true)
       (DownloadSpec.mk "https://example.com/v1" "exe" "high" false) ≠ [] ∧
     clientSubmit (fun _ => true)
       (DownloadSpec.mk "https://example.com/v1" "exe" "high" false) = [] ∧
     ((fun _ => true : String → Bool)
        (DownloadSpec.mk "https://example.com/v1" "exe" "high" false).url
          = false →
       "url" ∈ invalidFields (fun _ => true)
         (DownloadSpec.mk "https://example.com/v1" "exe" "high" false)) ∧
     (formatEnum.contains
        (DownloadSpec.mk "https://example.com/v1" "exe" "high" false).format
          = false →
       "format" ∈ invalidFields (fun _ => true)
         (DownloadSpec.mk "https://example.com/v1" "exe" "high" false)) ∧
     (qualityEnum.contains
        (DownloadSpec.mk "https://example.com/v1" "exe" "high" false).quality
          = false →
       "quality" ∈ invalidFields (fun _ => true)
         (DownloadSpec.mk "https://example.com/v1" "exe" "high" false)) ∧
     Action.engineCall
       (DownloadSpec.mk "https://example.com/v1" "exe" "high" false)
       ∈ postDownloadsHandler
           (DownloadSpec.mk "https://example.com/v1" "exe" "high" false)
           (.ok "{}")) :=
  ⟨by decide,
   client_validates_gateway_does_not (fun _ => true)
     (DownloadSpec.mk "https://example.com/v1" "exe" "high" false)
     (.ok "{}") (by decide)⟩

/-! ## C5 -/

/-- C5 counterexample: with three subscribed channels of which the first
one's connection is already closed, `notifyClients` delivers the marker to
the remaining two and raises no error, but the dead channel is NOT evicted
— the registry after the broadcast still contains it unchanged (eviction
happens only in the connection-close handler). -/
theorem broadcast_does_not_evict :
    (notifyClients [⟨0, false⟩, ⟨1, true⟩, ⟨2, true⟩]).1 =
      [⟨0, false⟩, ⟨1, true⟩, ⟨2, true⟩] ∧
    Channel.mk 0 false ∈ (notifyClients [⟨0, false⟩, ⟨1, true⟩, ⟨2, true⟩]).1 ∧
    (notifyClients [⟨0, false⟩, ⟨1, true⟩, ⟨2, true⟩]).2 = [1, 2] := by
  decide

/-- C5 amended: every broadcast writes the marker to every currently
registered channel in order; a write on a closed channel delivers nothing
but raises no error and does not stop the iteration, so every other
writable channel still receives the marker, and the registry is left
entirely unchanged — no channel is evicted by the broadcast. -/
theorem broadcast_delivers_to_writable (cs : List Channel) (c : Channel)
    (hc : c ∈ cs) (hw : c.writable = true) :
    (notifyClients cs).1 = cs ∧ c.id ∈ (notifyClients cs).2 := by
  refine ⟨rfl, ?_⟩
  simp only [notifyClients]
  induction cs with
  | nil => cases hc
  | cons hd tl ih =>
      rcases List.mem_cons.mp hc with h | h
      · subst h
        simp [broadcastWrites, hw]
      · simp only [broadcastWrites, List.mem_append]
        exact Or.inr (ih h)

/-- C5 witness: a concrete registry with a dead channel before a live one. -/
theorem broadcast_delivers_to_writable_witness :
    Channel.mk 1 true ∈ [Channel.mk 0 false, Channel.mk 1 true] ∧
    (Channel.mk 1 true).writable = true ∧
    ((notifyClients [Channel.mk 0 false, Channel.mk 1 true]).1 =
       [Channel.mk 0 false, Channel.mk 1 true] ∧
     (Channel.mk 1 true).id ∈
       (notifyClients [Channel.mk 0 false, Channel.mk 1 true]).2) :=
  ⟨by decide, rfl,
   broadcast_delivers_to_writable _ (Channel.mk 1 true) (by decide) rfl⟩

/-! ## C7 -/

/-- C7: the `POST /api/downloads` handler performs exactly one engine call,
carrying the submitted body unmodified, whatever the engine replies; on a
success reply it performs exactly the trace "engine call, one fan-out
notification, respond with the engine's body unmodified" (the notification
strictly before the response); on a non-success HTTP reply it responds 500
carrying the engine's response body as the error detail, with no
notification. -/
theorem create_job_proxy (s : DownloadSpec) :
    (∀ reply : EngineReply,
      ((postDownloadsHandler s reply).filterMap fun a =>
          match a with
          | .engineCall sp => some sp
          | _ => none) = [s]) ∧
    (∀ body : String,
      postDownloadsHandler s (.ok body) =
        [.engineCall s, .notify, .respondJson body]) ∧
    (∀ (status : Nat) (body : String),
      postDownloadsHandler s (.httpError status body) =
        [.engineCall s, .respondError 500 body]) := by
  refine ⟨?_, fun _ => rfl, fun _ _ => rfl⟩
  intro reply
  cases reply <;> rfl

/-! ## C8 -/

/-- C8 counterexample: two SIGTERM deliveries in a row each run the handler
`if (pythonProcess) pythonProcess.kill()`, so the engine handle receives
two `kill()` invocations, not one — there is no once-only latch (and one
delivery already shows the handler issues a bare `kill()` with no
request-wait-force-kill sequence). -/
theorem double_sigterm_double_kill :
    (applySignals 1 ⟨true, 0⟩).killCalls = 1 ∧
    (applySignals 2 ⟨true, 0⟩).killCalls = 2 := by
  decide

/-- C8 amended: each delivery of the termination signal invokes `kill()` on
the engine process handle exactly once while the handle is set — `n`
deliveries yield `n` kill invocations, with no error and no hang (a
`kill()` on an already-dead child is a no-op in Node), but nothing
deduplicates repeated signals and there is no wait-then-force-kill
escalation. -/
theorem sigterm_kill_per_signal (st : ShutdownState) (n : Nat)
    (h : st.procPresent = true) :
    (applySignals n st).killCalls = st.killCalls + n ∧
    (applySignals n st).procPresent = true := by
  induction n generalizing st with
  | zero => exact ⟨by simp [applySignals], by simpa [applySignals] using h⟩
  | succ m ih =>
      have hstep : onSigterm st = ⟨true, st.killCalls + 1⟩ := by
        cases st
        simp_all [onSigterm]
      rw [applySignals, hstep]
      rcases ih ⟨true, st.killCalls + 1⟩ rfl with ⟨h1, h2⟩
      refine ⟨?_, h2⟩
      rw [h1]
      show st.killCalls + 1 + m = st.killCalls + (m + 1)
      omega

/-- C8 witness: three signals on a present handle yield three kill calls. -/
theorem sigterm_kill_per_signal_witness :
    (ShutdownState.mk true 0).procPresent = true ∧
    ((applySignals 3 ⟨true, 0⟩).killCalls = (ShutdownState.mk true 0).killCalls + 3 ∧
     (applySignals 3 ⟨true, 0⟩).procPresent = true) :=
  ⟨rfl, sigterm_kill_per_signal ⟨true, 0⟩ 3 rfl⟩

/-- C9 witness: a concrete subscription before readiness. -/
theorem events_subscribe_any_time_witness :
    (∀ x ∈ [Channel.mk 5 true], x.id ≠ (Channel.mk 7 true).id) ∧
    (dispatch false .get eventsPath = some ⟨.get, eventsPath⟩ ∧
     (eventsHandler [Channel.mk 5 true] (Channel.mk 7 true)).writes =
       ["data: ping\n\n".toList] ∧
     (eventsHandler [Channel.mk 5 true] (Channel.mk 7 true)).clients =
       [Channel.mk 5 true] ++ [Channel.mk 7 true] ∧
     removeClient (eventsHandler [Channel.mk 5 true] (Channel.mk 7 true)).clients
       (Channel.mk 7 true).id = [Channel.mk 5 true]) :=
  ⟨by decide, events_subscribe_any_time false _ _ (by decide)⟩

end YTGateway
